import Mathlib

/-!
Shallow embedding of the sensor-visualization core of the pltapp repository:
the synthetic data generator (src/data_generator.py), the rolling plot buffer
and the two chart projections (src/plotting.py), and the timer-driven update
loop, selection handlers and Start/Stop/Clear commands (src/app/root_page.py).

Python floats are modelled as rationals. The pseudo-random primitives of the
`random` module are modelled by explicit choice arguments: each call site of
`random.random()` / `random.uniform(a, b)` consumes a draw `u` (the theorems
assume `0 ≤ u ≤ 1` where the value matters), `random.choice(l)` consumes an
arbitrary natural index reduced modulo the list length (so it always yields a
member of the list), and `random.randint(lo, hi)` consumes an arbitrary
natural reduced into the interval.
-/

namespace PltApp

/-- SensorData tuple (time, frequency, bandwidth, power) from data_generator.py. -/
structure SensorData where
  timestamp : ℚ
  frequency : ℚ
  bandwidth : ℚ
  power : ℚ
deriving DecidableEq

/-- FREQ_MIN constant (MHz). -/
def FREQ_MIN : ℚ := 2400

/-- FREQ_MAX constant (MHz). -/
def FREQ_MAX : ℚ := 2500

/-- POWER_MIN constant (dBm). -/
def POWER_MIN : ℚ := -100

/-- POWER_MAX constant (dBm). -/
def POWER_MAX : ℚ := -30

/-- BANDWIDTH_MIN constant (MHz). -/
def BANDWIDTH_MIN : ℚ := 1

/-- BANDWIDTH_MAX constant (MHz). -/
def BANDWIDTH_MAX : ℚ := 80

/-- WIFI_CHANNELS constant list from data_generator.py. -/
def WIFI_CHANNELS : List ℚ :=
  [2412, 2417, 2422, 2427, 2432, 2437, 2442, 2447, 2452, 2457, 2462, 2467, 2472]

/-- BLUETOOTH_BASE constant (MHz). -/
def BLUETOOTH_BASE : ℚ := 2402

/-- Model of random.uniform(a, b): a + (b - a) * u where u is the underlying
random() draw. -/
def random_uniform (a b u : ℚ) : ℚ := a + (b - a) * u

/-- Model of random.choice(l): an arbitrary natural index, reduced modulo the
list length so that a member of the (nonempty) list is always returned. -/
def random_choice (l : List ℚ) (i : Nat) : ℚ := l.getD (i % l.length) 0

/-- Model of random.randint(lo, hi): an arbitrary natural reduced into
[lo, hi]. -/
def random_randint (lo hi n : Nat) : Nat := lo + n % (hi - lo + 1)

/-- Random draws consumed by one call of _generate_realistic_frequency. -/
structure FreqChoices where
  rand : ℚ
  wifiIdx : Nat
  offsetU : ℚ
  hop : Nat
  unifU : ℚ
deriving DecidableEq

/-- Embedding of _generate_realistic_frequency from data_generator.py. -/
def generate_realistic_frequency (c : FreqChoices) : ℚ :=
  if c.rand < 3/5 then
    let base_channel := random_choice WIFI_CHANNELS c.wifiIdx
    let offset := random_uniform (-11) 11 c.offsetU
    max FREQ_MIN (min FREQ_MAX (base_channel + offset))
  else if c.rand < 9/10 then
    let hop_channel := random_randint 0 78 c.hop
    min FREQ_MAX (BLUETOOTH_BASE + (hop_channel : ℚ))
  else
    random_uniform FREQ_MIN FREQ_MAX c.unifU

/-- Random draws consumed by one call of _generate_realistic_bandwidth. -/
structure BwChoices where
  wifiRand : ℚ
  wifiIdx : Nat
  altIdx : Nat
  btIdx : Nat
  unifU : ℚ
deriving DecidableEq

/-- Embedding of _generate_realistic_bandwidth from data_generator.py. The
Python for-loop over WIFI_CHANNELS returns on the first channel within 15 MHz;
since the returned value does not depend on which channel matched, it is
equivalent to the existence test List.any. -/
def generate_realistic_bandwidth (frequency : ℚ) (c : BwChoices) : ℚ :=
  if WIFI_CHANNELS.any (fun ch => decide (|frequency - ch| < 15)) then
    if c.wifiRand < 4/5 then random_choice [20, 40] c.wifiIdx
    else random_choice [5, 10, 80] c.altIdx
  else if BLUETOOTH_BASE ≤ frequency ∧ frequency ≤ BLUETOOTH_BASE + 78 then
    random_choice [1, 1, 1, 2] c.btIdx
  else
    random_uniform BANDWIDTH_MIN 20 c.unifU

/-- Random draws consumed by one call of _generate_realistic_power. The
Gaussian noise draw is modelled as an arbitrary rational (it is unbounded). -/
structure PowerChoices where
  baseU : ℚ
  noise : ℚ
  strongRand : ℚ
  strongU : ℚ
  weakRand : ℚ
  weakU : ℚ
deriving DecidableEq

/-- Embedding of _generate_realistic_power from data_generator.py. The
frequency argument is kept although the source never reads it. -/
def generate_realistic_power (_frequency : ℚ) (c : PowerChoices) : ℚ :=
  let base_power := random_uniform (-85) (-45) c.baseU
  let noise := c.noise
  let base_power := if c.strongRand < 1/20 then random_uniform (-40) (-30) c.strongU
    else base_power
  let base_power := if c.weakRand < 1/10 then random_uniform (-95) (-85) c.weakU
    else base_power
  max POWER_MIN (min POWER_MAX (base_power + noise))

/-- Random draws consumed when generating one packet. -/
structure PacketChoices where
  jitterU : ℚ
  freq : FreqChoices
  bw : BwChoices
  power : PowerChoices
deriving DecidableEq

/-- Well-formedness of the draws: every value the source obtains as
random.random() or as the underlying draw of random.uniform lies in [0, 1].
Only the draws whose range matters for the stated properties appear here. -/
def PacketChoices.wf (c : PacketChoices) : Prop :=
  0 ≤ c.jitterU ∧ c.jitterU ≤ 1 ∧
  0 ≤ c.freq.offsetU ∧ c.freq.offsetU ≤ 1 ∧
  0 ≤ c.freq.unifU ∧ c.freq.unifU ≤ 1 ∧
  0 ≤ c.bw.unifU ∧ c.bw.unifU ≤ 1

instance (c : PacketChoices) : Decidable c.wf := by
  unfold PacketChoices.wf; infer_instance

/-- Embedding of generate_sensor_data from data_generator.py: current_time is
the value of time.time() at the call, and cs supplies the random draws of the
i-th loop iteration. -/
def generate_sensor_data (current_time : ℚ) (packets_per_second : Nat)
    (cs : Nat → PacketChoices) : List SensorData :=
  (List.range packets_per_second).map fun i =>
    let c := cs i
    let timestamp := current_time + random_uniform (-1/10) (1/10) c.jitterU
    let frequency := generate_realistic_frequency c.freq
    let bandwidth := generate_realistic_bandwidth frequency c.bw
    let power := generate_realistic_power frequency c.power
    ⟨timestamp, frequency, bandwidth, power⟩

/-- Embedding of validate_sensor_data from data_generator.py. The Python loop
returns False at the first violating sample, which over a whole list equals
the conjunction below; the isinstance checks are vacuous in the model. -/
def validate_sensor_data (data : List SensorData) : Bool :=
  if data.isEmpty then false
  else data.all fun s =>
    decide (0 < s.timestamp) &&
    decide (FREQ_MIN ≤ s.frequency ∧ s.frequency ≤ FREQ_MAX) &&
    decide (BANDWIDTH_MIN ≤ s.bandwidth ∧ s.bandwidth ≤ BANDWIDTH_MAX) &&
    decide (POWER_MIN ≤ s.power ∧ s.power ≤ POWER_MAX)

/-- Suffix of the last n elements of a list, in order. -/
def takeLast {α : Type} (n : Nat) (l : List α) : List α := (l.reverse.take n).reverse

/-- Embedding of PlotDataBuffer from plotting.py: a collections.deque with
maxlen equal to max_size, kept as the list of its elements oldest first. -/
structure PlotDataBuffer where
  max_size : Nat
  data_buffer : List SensorData
deriving DecidableEq

/-- Constructor PlotDataBuffer(max_size): the deque starts empty. -/
def PlotDataBuffer.init (max_size : Nat) : PlotDataBuffer := ⟨max_size, []⟩

/-- Method add_data: deque.extend appends on the right, evicting from the left
once maxlen is exceeded, so the deque holds the last max_size elements of the
old contents followed by the new ones. -/
def PlotDataBuffer.add_data (b : PlotDataBuffer) (new_data : List SensorData) :
    PlotDataBuffer :=
  { b with data_buffer := takeLast b.max_size (b.data_buffer ++ new_data) }

/-- Method get_data: list(self.data_buffer). -/
def PlotDataBuffer.get_data (b : PlotDataBuffer) : List SensorData := b.data_buffer

/-- Method clear: deque.clear empties the deque. -/
def PlotDataBuffer.clearAll (b : PlotDataBuffer) : PlotDataBuffer :=
  { b with data_buffer := [] }

/-- Method get_size: len(self.data_buffer). -/
def PlotDataBuffer.get_size (b : PlotDataBuffer) : Nat := b.data_buffer.length

/-- One call against the buffer: add_data or clear. -/
inductive BufOp where
  | add (xs : List SensorData)
  | clearOp
deriving DecidableEq

/-- Apply one buffer call. -/
def applyOp (b : PlotDataBuffer) : BufOp → PlotDataBuffer
  | .add xs => b.add_data xs
  | .clearOp => b.clearAll

/-- Run a sequence of buffer calls left to right. -/
def runOps (b : PlotDataBuffer) (ops : List BufOp) : PlotDataBuffer :=
  ops.foldl applyOp b

/-- Every element added since the last clear, in insertion order, starting
from the given initial contents. -/
def historyFrom (init : List SensorData) : List BufOp → List SensorData
  | [] => init
  | .add xs :: rest => historyFrom (init ++ xs) rest
  | .clearOp :: rest => historyFrom [] rest

/-- Chart-ready arrays extracted by create_frequency_bandwidth_plot in
plotting.py: x = frequencies, y = bandwidths, marker color = powers. -/
structure FreqBwPlotData where
  x : List ℚ
  y : List ℚ
  color : List ℚ
deriving DecidableEq

/-- Embedding of the data part of create_frequency_bandwidth_plot from
plotting.py: the empty-data branch installs a trace with empty arrays, the
other branch extracts the three columns in order. -/
def create_frequency_bandwidth_plot (data : List SensorData) : FreqBwPlotData :=
  if data.isEmpty then ⟨[], [], []⟩
  else ⟨data.map (·.frequency), data.map (·.bandwidth), data.map (·.power)⟩

/-- Chart-ready arrays extracted by create_scanner_plot in plotting.py:
x = frequencies, y = powers, marker color = bandwidths, marker size derived
from bandwidth. -/
structure ScannerPlotData where
  x : List ℚ
  y : List ℚ
  color : List ℚ
  size : List ℚ
deriving DecidableEq

/-- Marker size used by the scanner plot: max(4, min(15, bw/4)). -/
def scanner_marker_size (bw : ℚ) : ℚ := max 4 (min 15 (bw / 4))

/-- Embedding of the data part of create_scanner_plot from plotting.py. -/
def create_scanner_plot (data : List SensorData) : ScannerPlotData :=
  if data.isEmpty then ⟨[], [], [], []⟩
  else ⟨data.map (·.frequency), data.map (·.power), data.map (·.bandwidth),
    data.map fun s => scanner_marker_size s.bandwidth⟩

/-- Value stored as a selected point index. The frontend payload is untyped,
so an entry is either an actual integer index or a malformed value; the Python
comparison i < len raises TypeError on a malformed entry. -/
inductive SelEntry where
  | idx (n : Nat)
  | malformed
deriving DecidableEq

/-- Selection rectangle stored as selection_state in root_page.py. -/
structure SelRect where
  x0 : ℚ
  x1 : ℚ
  y0 : ℚ
  y1 : ℚ
deriving DecidableEq

/-- Range part of a plotly selection event payload. -/
structure SelRange where
  xlo : ℚ
  xhi : ℚ
  ylo : ℚ
  yhi : ℚ
deriving DecidableEq

/-- One entry of the points list of a selection event payload. -/
structure SelPoint where
  x : ℚ
  y : ℚ
  pointIndex : SelEntry
deriving DecidableEq

/-- Selection event payload: optional range dict and optional points list.
A falsy payload (None or empty dict) is modelled as Option.none around it. -/
structure SelPayload where
  range : Option SelRange
  points : Option (List SelPoint)
deriving DecidableEq

/-- Python min over a nonempty list (the handlers only apply it then). -/
def pyMin : List ℚ → ℚ
  | [] => 0
  | x :: xs => xs.foldl min x

/-- Python max over a nonempty list (the handlers only apply it then). -/
def pyMax : List ℚ → ℚ
  | [] => 0
  | x :: xs => xs.foldl max x

/-- Embedding of handle_freq_bw_selection from root_page.py, returning the
pair (freq_bw_selection_state, freq_bw_selected_points) it stores. -/
def handle_freq_bw_selection (selection_data : Option SelPayload) :
    Option SelRect × Option (List SelEntry) :=
  match selection_data with
  | none => (none, none)
  | some d =>
    let state : Option SelRect :=
      match d.range with
      | some r => some ⟨r.xlo, r.xhi, r.ylo, r.yhi⟩
      | none =>
        match d.points with
        | some ps =>
          if ps.isEmpty then none
          else some ⟨pyMin (ps.map (·.x)), pyMax (ps.map (·.x)),
            pyMin (ps.map (·.y)), pyMax (ps.map (·.y))⟩
        | none => none
    let pts : Option (List SelEntry) :=
      match d.points with
      | some ps => if ps.isEmpty then none else some (ps.map (·.pointIndex))
      | none => none
    (state, pts)

/-- Embedding of handle_scanner_selection from root_page.py; the code is the
same elif chain as the freq/bw handler with y being power instead of
bandwidth, which does not change the computation on the payload. -/
def handle_scanner_selection (selection_data : Option SelPayload) :
    Option SelRect × Option (List SelEntry) :=
  match selection_data with
  | none => (none, none)
  | some d =>
    let state : Option SelRect :=
      match d.range with
      | some r => some ⟨r.xlo, r.xhi, r.ylo, r.yhi⟩
      | none =>
        match d.points with
        | some ps =>
          if ps.isEmpty then none
          else some ⟨pyMin (ps.map (·.x)), pyMax (ps.map (·.x)),
            pyMin (ps.map (·.y)), pyMax (ps.map (·.y))⟩
        | none => none
    let pts : Option (List SelEntry) :=
      match d.points with
      | some ps => if ps.isEmpty then none else some (ps.map (·.pointIndex))
      | none => none
    (state, pts)

/-- Written from the wording of the claim: an explicit range becomes the
rectangle; otherwise a nonempty points list yields the bounding box of the
point coordinates; the selected indices are the pointIndex values of a
nonempty points list; an event with no range and no points clears the
selection. To be compared with the handlers embedded from the source. -/
def selection_claim_spec (selection_data : Option SelPayload) :
    Option SelRect × Option (List SelEntry) :=
  match selection_data with
  | none => (none, none)
  | some d =>
    let rect : Option SelRect :=
      match d.range, d.points with
      | some r, _ => some ⟨r.xlo, r.xhi, r.ylo, r.yhi⟩
      | none, some ps =>
        if ps.isEmpty then none
        else some ⟨pyMin (ps.map (·.x)), pyMax (ps.map (·.x)),
          pyMin (ps.map (·.y)), pyMax (ps.map (·.y))⟩
      | none, none => none
    let indices : Option (List SelEntry) :=
      match d.points with
      | some ps => if ps.isEmpty then none else some (ps.map (·.pointIndex))
      | none => none
    (rect, indices)

/-- Model of the single scatter trace of a nicegui plotly element figure:
the data arrays, the selectedpoints attribute and the layout shapes list. -/
structure Figure where
  x : List ℚ
  y : List ℚ
  color : List ℚ
  size : List ℚ
  selectedpoints : Option (List Nat)
  shapes : List SelRect
deriving DecidableEq

/-- Embedding of efficient_update_plot_data from root_page.py, restricted to
trace 0 of a present element: x and y are always assigned, color and size only
when passed, selectedpoints is assigned or reset to None. -/
def efficient_update_plot_data (fig : Figure) (x_data y_data : List ℚ)
    (colors sizes : Option (List ℚ)) (selected_points : Option (List Nat)) :
    Figure :=
  { fig with
    x := x_data
    y := y_data
    color := colors.getD fig.color
    size := sizes.getD fig.size
    selectedpoints := selected_points }

/-- Embedding of efficient_clear_plot_data from root_page.py. -/
def efficient_clear_plot_data (fig : Figure) : Figure :=
  { fig with x := [], y := [], color := [], size := [], selectedpoints := none }

/-- Embedding of efficient_update_plot_selection from root_page.py: a present
selection_state installs its rectangle as the only layout shape, an absent one
clears the shapes; a truthy selected_points list is installed on trace 0,
otherwise selectedpoints is reset to None. -/
def efficient_update_plot_selection (fig : Figure)
    (selection_state : Option SelRect) (selected_points : Option (List Nat)) :
    Figure :=
  let fig1 :=
    match selection_state with
    | some r => { fig with shapes := [r] }
    | none => { fig with shapes := [] }
  match selected_points with
  | some ps => if ps.isEmpty then { fig1 with selectedpoints := none }
    else { fig1 with selectedpoints := some ps }
  | none => { fig1 with selectedpoints := none }

/-- Model of the ui.timer object: its interval and active flag. -/
structure TimerModel where
  interval : ℚ
  active : Bool
deriving DecidableEq

/-- Module-level state of root_page.py that the sensor commands touch. The
two label elements are modelled by the values they display (None when the
element has not been created); data_rate holds the pair KB-per-update and
KB-per-second that update_data_rate_display computes. -/
structure AppState where
  is_generating : Bool
  status_text : Option String
  data_rate : Option (ℚ × ℚ)
  packets_per_second : Nat
  update_rate : ℚ
  timer : Option TimerModel
  data_buffer : PlotDataBuffer
  freq_bw_plot_element : Option Figure
  scanner_plot_element : Option Figure
  freq_bw_selection_state : Option SelRect
  freq_bw_selected_points : Option (List SelEntry)
  scanner_selection_state : Option SelRect
  scanner_selected_points : Option (List SelEntry)
deriving DecidableEq

/-- Embedding of calculate_data_size from root_page.py (kilobytes). -/
def calculate_data_size (num_packets : Nat) : ℚ := (num_packets * 32 : ℚ) / 1024

/-- Embedding of update_data_rate_display from root_page.py. -/
def update_data_rate_display (s : AppState) : AppState :=
  match s.data_rate with
  | some _ =>
    let d := calculate_data_size s.packets_per_second
    { s with data_rate := some (d, d / s.update_rate) }
  | none => s

/-- Embedding of start_generation from root_page.py. -/
def start_generation (s : AppState) : AppState :=
  if s.is_generating then s
  else
    let s1 := { s with
      is_generating := true
      status_text := s.status_text.map fun _ => "Status: Running" }
    let s2 := { s1 with timer := some ⟨s1.update_rate, true⟩ }
    update_data_rate_display s2

/-- Embedding of stop_generation from root_page.py. Whether or not a timer
object exists, the timer variable ends as None. -/
def stop_generation (s : AppState) : AppState :=
  if !s.is_generating then s
  else
    { s with
      is_generating := false
      status_text := s.status_text.map fun _ => "Status: Stopped"
      timer := none }

/-- Embedding of clear_plots from root_page.py: empty the buffer, reset the
four selection variables, and for each present plot element clear its data
arrays and its selection overlay. -/
def clear_plots (s : AppState) : AppState :=
  let s1 := { s with
    data_buffer := s.data_buffer.clearAll
    freq_bw_selection_state := none
    freq_bw_selected_points := none
    scanner_selection_state := none
    scanner_selected_points := none }
  let wipeFig := fun (fig : Figure) =>
    efficient_update_plot_selection (efficient_clear_plot_data fig) none none
  let s2 :=
    match s1.freq_bw_plot_element with
    | some fig => { s1 with freq_bw_plot_element := some (wipeFig fig) }
    | none => s1
  match s2.scanner_plot_element with
  | some fig => { s2 with scanner_plot_element := some (wipeFig fig) }
  | none => s2

/-- The Python list comprehension [i for i in pts if i < n]: evaluated left to
right, it raises TypeError at the first malformed entry and otherwise keeps
the integer entries below n. -/
def filterSelectedPoints : List SelEntry → Nat → Except Unit (List Nat)
  | [], _ => .ok []
  | .malformed :: _, _ => .error ()
  | .idx i :: rest, n =>
    (filterSelectedPoints rest n).map fun l => if i < n then i :: l else l

/-- Selected points recomputed inside one tick for one plot: None unless both
the selection state and the stored points are truthy, otherwise the filtered
index list (which may raise on malformed entries). -/
def computeSelected (selection_state : Option SelRect)
    (selected_points : Option (List SelEntry)) (n : Nat) :
    Except Unit (Option (List Nat)) :=
  match selection_state, selected_points with
  | some _, some ps =>
    if ps.isEmpty then .ok none else (filterSelectedPoints ps n).map some
  | _, _ => .ok none

/-- Freq/bw half of the update_sensor_data try block. An error result carries
the state at the moment the exception is raised. -/
def freqBwTick (s : AppState) (current_data : List SensorData) :
    Except AppState AppState :=
  match s.freq_bw_plot_element with
  | some fig =>
    if current_data.isEmpty then
      .ok { s with freq_bw_plot_element := some (efficient_clear_plot_data fig) }
    else
      let frequencies := current_data.map (·.frequency)
      let bandwidths := current_data.map (·.bandwidth)
      let powers := current_data.map (·.power)
      match computeSelected s.freq_bw_selection_state s.freq_bw_selected_points
          frequencies.length with
      | .error _ => .error s
      | .ok selected =>
        let fig1 := efficient_update_plot_data fig frequencies bandwidths
          (some powers) none selected
        let fig2 :=
          match s.freq_bw_selection_state with
          | some r => efficient_update_plot_selection fig1 (some r) selected
          | none => fig1
        .ok { s with freq_bw_plot_element := some fig2 }
  | none => .ok s

/-- Scanner half of the update_sensor_data try block. -/
def scannerTick (s : AppState) (current_data : List SensorData) :
    Except AppState AppState :=
  match s.scanner_plot_element with
  | some fig =>
    if current_data.isEmpty then
      .ok { s with scanner_plot_element := some (efficient_clear_plot_data fig) }
    else
      let frequencies := current_data.map (·.frequency)
      let powers := current_data.map (·.power)
      let bandwidths := current_data.map (·.bandwidth)
      let sizes := bandwidths.map scanner_marker_size
      match computeSelected s.scanner_selection_state s.scanner_selected_points
          frequencies.length with
      | .error _ => .error s
      | .ok selected =>
        let fig1 := efficient_update_plot_data fig frequencies powers
          (some bandwidths) (some sizes) selected
        let fig2 :=
          match s.scanner_selection_state with
          | some r => efficient_update_plot_selection fig1 (some r) selected
          | none => fig1
        .ok { s with scanner_plot_element := some fig2 }
  | none => .ok s

/-- State delivered by the except clause of update_sensor_data: an uncaught
body result passes through, a raised one is caught with whatever mutations
had already happened. -/
def caughtState : Except AppState AppState → AppState
  | .ok s => s
  | .error s => s

/-- Embedding of the timer callback update_sensor_data from root_page.py:
new_data is the batch this tick generates. The buffer is cleared and refilled
before the plot blocks run; any exception in the blocks is caught by the
outer try, leaving the state as already mutated. -/
def update_sensor_data (s : AppState) (new_data : List SensorData) : AppState :=
  if !s.is_generating then s
  else
    let s1 := { s with data_buffer := (s.data_buffer.clearAll).add_data new_data }
    let current_data := s1.data_buffer.get_data
    caughtState (freqBwTick s1 current_data >>= fun s2 => scannerTick s2 current_data)

section BufferLemmas

lemma length_takeLast {α : Type} (n : Nat) (l : List α) :
    (takeLast n l).length = min n l.length := by
  simp [takeLast]

lemma takeLast_length_le {α : Type} (n : Nat) (l : List α) :
    (takeLast n l).length ≤ n := by
  rw [length_takeLast]; exact Nat.min_le_left _ _

lemma takeLast_of_length_le {α : Type} {n : Nat} {l : List α}
    (h : l.length ≤ n) : takeLast n l = l := by
  unfold takeLast
  rw [List.take_of_length_le (by simpa using h), List.reverse_reverse]

lemma takeLast_takeLast {α : Type} (n : Nat) (l : List α) :
    takeLast n (takeLast n l) = takeLast n l :=
  takeLast_of_length_le (takeLast_length_le n l)

lemma takeLast_append_takeLast {α : Type} (n : Nat) (a b : List α) :
    takeLast n (takeLast n a ++ b) = takeLast n (a ++ b) := by
  simp only [takeLast, List.reverse_append, List.reverse_reverse,
    List.take_append_eq_append_take, List.take_take, List.length_reverse]
  congr 2
  congr 1
  omega

lemma takeLast_historyFrom_congr {a b : List SensorData} (n : Nat)
    (ops : List BufOp) (h : takeLast n a = takeLast n b) :
    takeLast n (historyFrom a ops) = takeLast n (historyFrom b ops) := by
  induction ops generalizing a b with
  | nil => simpa [historyFrom] using h
  | cons op rest ih =>
    cases op with
    | add xs =>
      simp only [historyFrom]
      apply ih
      calc takeLast n (a ++ xs) = takeLast n (takeLast n a ++ xs) :=
            (takeLast_append_takeLast n a xs).symm
        _ = takeLast n (takeLast n b ++ xs) := by rw [h]
        _ = takeLast n (b ++ xs) := takeLast_append_takeLast n b xs
    | clearOp => simp only [historyFrom]

lemma runOps_spec (ops : List BufOp) (b : PlotDataBuffer)
    (h : b.data_buffer.length ≤ b.max_size) :
    (runOps b ops).max_size = b.max_size ∧
    (runOps b ops).data_buffer = takeLast b.max_size (historyFrom b.data_buffer ops) := by
  induction ops generalizing b with
  | nil =>
    simp [runOps, historyFrom, takeLast_of_length_le h]
  | cons op rest ih =>
    cases op with
    | add xs =>
      have hstep : runOps b (.add xs :: rest) = runOps (b.add_data xs) rest := rfl
      have hlen : (b.add_data xs).data_buffer.length ≤ (b.add_data xs).max_size :=
        takeLast_length_le _ _
      obtain ⟨hm, hd⟩ := ih (b.add_data xs) hlen
      refine ⟨by rw [hstep, hm]; rfl, ?_⟩
      rw [hstep, hd]
      show takeLast b.max_size
          (historyFrom (takeLast b.max_size (b.data_buffer ++ xs)) rest) = _
      rw [takeLast_historyFrom_congr b.max_size rest
        (takeLast_takeLast b.max_size (b.data_buffer ++ xs))]
      rfl
    | clearOp =>
      have hstep : runOps b (.clearOp :: rest) = runOps b.clearAll rest := rfl
      obtain ⟨hm, hd⟩ := ih b.clearAll (by simp [PlotDataBuffer.clearAll])
      exact ⟨by rw [hstep, hm]; rfl, by rw [hstep, hd]; rfl⟩

end BufferLemmas

/-- Claim C1: for the rolling buffer PlotDataBuffer with capacity max_size,
after any sequence of add_data and clear calls starting from a fresh buffer,
the size is at most the capacity, and get_data returns exactly the last
max_size elements added since the most recent clear, in insertion order, the
oldest elements beyond the capacity being dropped. -/
theorem C1_buffer_invariant (cap : Nat) (ops : List BufOp) :
    (runOps (PlotDataBuffer.init cap) ops).get_size ≤ cap ∧
    (runOps (PlotDataBuffer.init cap) ops).get_data =
      takeLast cap (historyFrom [] ops) := by
  obtain ⟨hm, hd⟩ := runOps_spec ops (PlotDataBuffer.init cap) (by simp [PlotDataBuffer.init])
  constructor
  · show (runOps (PlotDataBuffer.init cap) ops).data_buffer.length ≤ cap
    rw [hd]
    exact takeLast_length_le _ _
  · exact hd

section GeneratorLemmas

lemma random_choice_mem (l : List ℚ) (i : Nat) (h : l ≠ []) :
    random_choice l i ∈ l := by
  unfold random_choice
  have hlen : 0 < l.length := List.length_pos.mpr h
  have hi : i % l.length < l.length := Nat.mod_lt _ hlen
  rw [List.getD_eq_getElem _ _ hi]
  exact List.getElem_mem hi

lemma generate_realistic_frequency_range (c : FreqChoices)
    (h0 : 0 ≤ c.unifU) (h1 : c.unifU ≤ 1) :
    FREQ_MIN ≤ generate_realistic_frequency c ∧
    generate_realistic_frequency c ≤ FREQ_MAX := by
  unfold generate_realistic_frequency
  split
  · exact ⟨le_max_left _ _,
      max_le (by norm_num [FREQ_MIN, FREQ_MAX]) (min_le_left _ _)⟩
  · split
    · refine ⟨le_min (by norm_num [FREQ_MIN, FREQ_MAX]) ?_, min_le_left _ _⟩
      have hc : (0:ℚ) ≤ ((random_randint 0 78 c.hop : Nat) : ℚ) := Nat.cast_nonneg _
      unfold FREQ_MIN BLUETOOTH_BASE
      linarith
    · unfold random_uniform FREQ_MIN FREQ_MAX
      constructor <;> nlinarith

lemma generate_realistic_bandwidth_range (f : ℚ) (c : BwChoices)
    (h0 : 0 ≤ c.unifU) (h1 : c.unifU ≤ 1) :
    BANDWIDTH_MIN ≤ generate_realistic_bandwidth f c ∧
    generate_realistic_bandwidth f c ≤ BANDWIDTH_MAX := by
  have h2040 : ∀ x ∈ ([20, 40] : List ℚ), BANDWIDTH_MIN ≤ x ∧ x ≤ BANDWIDTH_MAX := by
    decide
  have h51080 : ∀ x ∈ ([5, 10, 80] : List ℚ), BANDWIDTH_MIN ≤ x ∧ x ≤ BANDWIDTH_MAX := by
    decide
  have h1112 : ∀ x ∈ ([1, 1, 1, 2] : List ℚ), BANDWIDTH_MIN ≤ x ∧ x ≤ BANDWIDTH_MAX := by
    decide
  unfold generate_realistic_bandwidth
  split
  · split
    · exact h2040 _ (random_choice_mem _ _ (by simp))
    · exact h51080 _ (random_choice_mem _ _ (by simp))
  · split
    · exact h1112 _ (random_choice_mem _ _ (by simp))
    · unfold random_uniform BANDWIDTH_MIN BANDWIDTH_MAX
      constructor <;> nlinarith

lemma generate_realistic_power_range (f : ℚ) (c : PowerChoices) :
    POWER_MIN ≤ generate_realistic_power f c ∧
    generate_realistic_power f c ≤ POWER_MAX := by
  unfold generate_realistic_power
  exact ⟨le_max_left _ _,
    max_le (by norm_num [POWER_MIN, POWER_MAX]) (min_le_left _ _)⟩

lemma generate_sensor_data_mem {t : ℚ} {count : Nat} {cs : Nat → PacketChoices}
    {s : SensorData} (hs : s ∈ generate_sensor_data t count cs) :
    ∃ i, i < count ∧
      s.timestamp = t + random_uniform (-1/10) (1/10) (cs i).jitterU ∧
      s.frequency = generate_realistic_frequency (cs i).freq ∧
      s.bandwidth = generate_realistic_bandwidth s.frequency (cs i).bw ∧
      s.power = generate_realistic_power s.frequency (cs i).power := by
  simp only [generate_sensor_data, List.mem_map, List.mem_range] at hs
  obtain ⟨i, hi, rfl⟩ := hs
  exact ⟨i, hi, rfl, rfl, rfl, rfl⟩

end GeneratorLemmas

/-- Claim C3: for every count, generate_sensor_data returns exactly count
samples, each with frequency in [2400, 2500], bandwidth in [1, 80] and power
in [-100, -30]; count = 0 yields the empty list. The hypothesis states that
the uniform draws feeding the generator lie in [0, 1]. -/
theorem C3_generate_count_and_ranges (t : ℚ) (count : Nat)
    (cs : Nat → PacketChoices) (hwf : ∀ i, (cs i).wf) :
    (generate_sensor_data t count cs).length = count ∧
    (∀ s ∈ generate_sensor_data t count cs,
      (2400 ≤ s.frequency ∧ s.frequency ≤ 2500) ∧
      (1 ≤ s.bandwidth ∧ s.bandwidth ≤ 80) ∧
      (-100 ≤ s.power ∧ s.power ≤ -30)) ∧
    generate_sensor_data t 0 cs = [] := by
  refine ⟨by simp [generate_sensor_data], ?_, by simp [generate_sensor_data]⟩
  intro s hs
  obtain ⟨i, _, _, hf, hb, hp⟩ := generate_sensor_data_mem hs
  obtain ⟨_, _, _, _, hu0, hu1, hb0, hb1⟩ := hwf i
  have h1 := generate_realistic_frequency_range (cs i).freq hu0 hu1
  have h2 := generate_realistic_bandwidth_range s.frequency (cs i).bw hb0 hb1
  have h3 := generate_realistic_power_range s.frequency (cs i).power
  rw [← hf] at h1
  rw [← hb] at h2
  rw [← hp] at h3
  unfold FREQ_MIN FREQ_MAX at h1
  unfold BANDWIDTH_MIN BANDWIDTH_MAX at h2
  unfold POWER_MIN POWER_MAX at h3
  exact ⟨h1, h2, h3⟩

/-- Concrete choice stream with all draws zero, used by witnesses. -/
def cs0 : Nat → PacketChoices :=
  fun _ => ⟨0, ⟨0, 0, 0, 0, 0⟩, ⟨0, 0, 0, 0, 0⟩, ⟨0, 0, 0, 0, 0, 0⟩⟩

lemma cs0_wf : ∀ i, (cs0 i).wf := by
  intro i
  simp only [cs0]
  decide

/-- Witness for C3 at t = 1, count = 2 and the all-zero choice stream. -/
theorem C3_generate_count_and_ranges_witness :
    (∀ i, (cs0 i).wf) ∧
    ((generate_sensor_data 1 2 cs0).length = 2 ∧
     (∀ s ∈ generate_sensor_data 1 2 cs0,
       (2400 ≤ s.frequency ∧ s.frequency ≤ 2500) ∧
       (1 ≤ s.bandwidth ∧ s.bandwidth ≤ 80) ∧
       (-100 ≤ s.power ∧ s.power ≤ -30)) ∧
     generate_sensor_data 1 0 cs0 = []) :=
  ⟨cs0_wf, C3_generate_count_and_ranges 1 2 cs0 cs0_wf⟩

/-- Claim C4: for every sample list, the x array of the frequency/bandwidth
projection is the frequencies in order, the size array of the scanner
projection is clamp(bandwidth/4, 4, 15) elementwise, and the empty list gives
projections whose arrays are all empty. -/
theorem C4_projection_arrays (data : List SensorData) :
    (create_frequency_bandwidth_plot data).x = data.map (·.frequency) ∧
    (create_scanner_plot data).size =
      data.map (fun s => max 4 (min 15 (s.bandwidth / 4))) ∧
    create_frequency_bandwidth_plot [] = ⟨[], [], []⟩ ∧
    create_scanner_plot [] = ⟨[], [], [], []⟩ := by
  cases data with
  | nil => exact ⟨rfl, rfl, rfl, rfl⟩
  | cons a l =>
    refine ⟨?_, ?_, rfl, rfl⟩ <;>
      simp [create_frequency_bandwidth_plot, create_scanner_plot,
        scanner_marker_size]

/-- Claim C10: validate_sensor_data rejects the empty list, so the output of
generate_sensor_data for count = 0 fails validation, while for every count at
least 1 the generated output passes validation. The hypotheses state that the
base time exceeds the maximal negative jitter and that the uniform draws lie
in [0, 1]. -/
theorem C10_validate_generated (t t' : ℚ) (count : Nat)
    (cs cs' : Nat → PacketChoices) (hcount : 1 ≤ count) (ht : 1/10 < t)
    (hwf : ∀ i, (cs i).wf) :
    validate_sensor_data (generate_sensor_data t count cs) = true ∧
    validate_sensor_data (generate_sensor_data t' 0 cs') = false := by
  constructor
  · unfold validate_sensor_data
    have hne0 : generate_sensor_data t count cs ≠ [] := by
      intro h
      have hlen : (generate_sensor_data t count cs).length = count := by
        simp [generate_sensor_data]
      rw [h] at hlen
      simp only [List.length_nil] at hlen
      omega
    have hne : (generate_sensor_data t count cs).isEmpty = false := by
      simpa [List.isEmpty_iff] using hne0
    rw [hne]
    simp only [Bool.false_eq_true, if_false, List.all_eq_true]
    intro s hs
    obtain ⟨i, _, hts, hf, hb, hp⟩ := generate_sensor_data_mem hs
    obtain ⟨hj0, hj1, _, _, hu0, hu1, hb0, hb1⟩ := hwf i
    have h1 := generate_realistic_frequency_range (cs i).freq hu0 hu1
    have h2 := generate_realistic_bandwidth_range s.frequency (cs i).bw hb0 hb1
    have h3 := generate_realistic_power_range s.frequency (cs i).power
    rw [← hf] at h1
    rw [← hb] at h2
    rw [← hp] at h3
    have hts' : 0 < s.timestamp := by
      rw [hts]
      unfold random_uniform
      nlinarith
    simp only [Bool.and_eq_true, decide_eq_true_eq]
    exact ⟨⟨⟨hts', h1⟩, h2⟩, h3⟩
  · simp [generate_sensor_data, validate_sensor_data]

/-- Witness for C10 at t = 1, count = 1 and the all-zero choice stream. -/
theorem C10_validate_generated_witness :
    ((1 : Nat) ≤ 1 ∧ (1:ℚ)/10 < 1 ∧ ∀ i, (cs0 i).wf) ∧
    (validate_sensor_data (generate_sensor_data 1 1 cs0) = true ∧
     validate_sensor_data (generate_sensor_data 0 0 cs0) = false) :=
  ⟨⟨le_refl 1, by norm_num, cs0_wf⟩,
   C10_validate_generated 1 0 1 cs0 cs0 (le_refl 1) (by norm_num) cs0_wf⟩

section BandwidthBucketLemmas

lemma wifi_channel_bounds : ∀ x ∈ WIFI_CHANNELS, (2412:ℚ) ≤ x ∧ x ≤ 2472 := by
  decide

lemma near_wifi_of_bt_range (f : ℚ) (hlo : 2402 ≤ f) (hhi : f ≤ 2480) :
    (WIFI_CHANNELS.any fun ch => decide (|f - ch| < 15)) = true := by
  rw [List.any_eq_true]
  rcases lt_or_le f 2427 with h1 | h1
  · exact ⟨2412, by norm_num [WIFI_CHANNELS],
      decide_eq_true (by rw [abs_lt]; constructor <;> linarith)⟩
  rcases lt_or_le f 2452 with h2 | h2
  · exact ⟨2437, by norm_num [WIFI_CHANNELS],
      decide_eq_true (by rw [abs_lt]; constructor <;> linarith)⟩
  rcases lt_or_le f 2477 with h3 | h3
  · exact ⟨2462, by norm_num [WIFI_CHANNELS],
      decide_eq_true (by rw [abs_lt]; constructor <;> linarith)⟩
  · exact ⟨2472, by norm_num [WIFI_CHANNELS],
      decide_eq_true (by rw [abs_lt]; constructor <;> linarith)⟩

lemma freq_wifi_eq (c : FreqChoices) (h : c.rand < 3/5) :
    generate_realistic_frequency c =
      max FREQ_MIN (min FREQ_MAX
        (random_choice WIFI_CHANNELS c.wifiIdx + random_uniform (-11) 11 c.offsetU)) := by
  unfold generate_realistic_frequency
  rw [if_pos h]

lemma freq_bt_eq (c : FreqChoices) (h1 : ¬ c.rand < 3/5) (h2 : c.rand < 9/10) :
    generate_realistic_frequency c =
      min FREQ_MAX (BLUETOOTH_BASE + ((random_randint 0 78 c.hop : Nat) : ℚ)) := by
  unfold generate_realistic_frequency
  rw [if_neg h1, if_pos h2]

lemma bandwidth_wifi_branch (f : ℚ) (c : BwChoices)
    (h : (WIFI_CHANNELS.any fun ch => decide (|f - ch| < 15)) = true) :
    generate_realistic_bandwidth f c ∈ ([20, 40, 5, 10, 80] : List ℚ) := by
  unfold generate_realistic_bandwidth
  rw [h, if_pos rfl]
  split
  · have hm := random_choice_mem [20, 40] c.wifiIdx (by simp)
    simp only [List.mem_cons, List.not_mem_nil, or_false] at hm
    simp only [List.mem_cons]
    tauto
  · have hm := random_choice_mem [5, 10, 80] c.altIdx (by simp)
    simp only [List.mem_cons, List.not_mem_nil, or_false] at hm
    simp only [List.mem_cons]
    tauto

end BandwidthBucketLemmas

/-- Counterexample for claim C6: the draws below fall in the Bluetooth bucket
(rand = 7/10 lies in [0.6, 0.9)) with hop channel 0, giving frequency 2402;
yet the bandwidth generated for that sample is 20 MHz, not about 1 to 2 MHz,
because 2402 is within 15 MHz of WiFi channel 2412. -/
theorem C6_bt_bucket_counterexample :
    ((3:ℚ)/5 ≤ (⟨7/10, 0, 0, 0, 0⟩ : FreqChoices).rand ∧
      (⟨7/10, 0, 0, 0, 0⟩ : FreqChoices).rand < 9/10) ∧
    generate_realistic_frequency ⟨7/10, 0, 0, 0, 0⟩ = 2402 ∧
    generate_realistic_bandwidth
      (generate_realistic_frequency ⟨7/10, 0, 0, 0, 0⟩) ⟨0, 0, 0, 0, 0⟩ = 20 ∧
    ¬ generate_realistic_bandwidth
      (generate_realistic_frequency ⟨7/10, 0, 0, 0, 0⟩) ⟨0, 0, 0, 0, 0⟩ ≤ 2 := by
  have hfreq : generate_realistic_frequency ⟨7/10, 0, 0, 0, 0⟩ = 2402 := by
    rw [freq_bt_eq _ (by norm_num) (by norm_num)]
    show min FREQ_MAX (BLUETOOTH_BASE + ((random_randint 0 78 0 : Nat) : ℚ)) = 2402
    norm_num [random_randint, FREQ_MAX, BLUETOOTH_BASE]
  have hbw : generate_realistic_bandwidth (2402 : ℚ) ⟨0, 0, 0, 0, 0⟩ = 20 := by
    unfold generate_realistic_bandwidth
    rw [near_wifi_of_bt_range 2402 (by norm_num) (by norm_num), if_pos rfl,
      if_pos (by norm_num)]
    decide
  refine ⟨⟨by norm_num, by norm_num⟩, hfreq, ?_, ?_⟩
  · rw [hfreq, hbw]
  · rw [hfreq, hbw]; norm_num

/-- Claim C6 as amended: the bandwidth depends on the generated frequency
value, not on the chosen bucket. A sample from the WiFi bucket or from the
Bluetooth bucket always receives a WiFi-style bandwidth from
{20, 40, 5, 10, 80} MHz, because every Bluetooth hop frequency lies within
15 MHz of some WiFi channel; the 1 to 2 MHz Bluetooth bandwidth branch is
unreachable for Bluetooth-bucket samples, and a uniform-bucket sample gets a
uniform bandwidth only when its frequency is not within 15 MHz of any WiFi
channel. -/
theorem C6_bandwidth_by_frequency_amended (fc : FreqChoices) (c : BwChoices)
    (ho0 : 0 ≤ fc.offsetU) (ho1 : fc.offsetU ≤ 1) (hr : fc.rand < 9/10) :
    generate_realistic_bandwidth (generate_realistic_frequency fc) c ∈
      ([20, 40, 5, 10, 80] : List ℚ) := by
  apply bandwidth_wifi_branch
  by_cases h6 : fc.rand < 3/5
  · rw [freq_wifi_eq fc h6]
    set base := random_choice WIFI_CHANNELS fc.wifiIdx with hbase
    have hmem : base ∈ WIFI_CHANNELS :=
      random_choice_mem _ _ (by simp [WIFI_CHANNELS])
    obtain ⟨hb1, hb2⟩ := wifi_channel_bounds base hmem
    have hoff1 : -11 ≤ random_uniform (-11) 11 fc.offsetU := by
      unfold random_uniform; nlinarith
    have hoff2 : random_uniform (-11) 11 fc.offsetU ≤ 11 := by
      unfold random_uniform; nlinarith
    have hclamp : max FREQ_MIN (min FREQ_MAX
        (base + random_uniform (-11) 11 fc.offsetU)) =
        base + random_uniform (-11) 11 fc.offsetU := by
      unfold FREQ_MIN FREQ_MAX
      rw [min_eq_right (by linarith), max_eq_right (by linarith)]
    rw [hclamp, List.any_eq_true]
    refine ⟨base, hmem, decide_eq_true ?_⟩
    rw [abs_lt]
    constructor <;> linarith
  · rw [freq_bt_eq fc h6 hr]
    have hh : random_randint 0 78 fc.hop < 79 := by
      unfold random_randint; omega
    have hcast : ((random_randint 0 78 fc.hop : Nat) : ℚ) ≤ 78 := by
      exact_mod_cast Nat.le_of_lt_succ hh
    have hcast0 : (0:ℚ) ≤ ((random_randint 0 78 fc.hop : Nat) : ℚ) :=
      Nat.cast_nonneg _
    have hmin : min FREQ_MAX (BLUETOOTH_BASE + ((random_randint 0 78 fc.hop : Nat) : ℚ)) =
        BLUETOOTH_BASE + ((random_randint 0 78 fc.hop : Nat) : ℚ) := by
      unfold FREQ_MAX BLUETOOTH_BASE
      rw [min_eq_right (by linarith)]
    rw [hmin]
    apply near_wifi_of_bt_range
    · unfold BLUETOOTH_BASE; linarith
    · unfold BLUETOOTH_BASE; linarith

/-- Witness for the amended C6 at the all-zero draws, which fall in the WiFi
bucket. -/
theorem C6_bandwidth_by_frequency_amended_witness :
    ((0:ℚ) ≤ (⟨0, 0, 0, 0, 0⟩ : FreqChoices).offsetU ∧
      (⟨0, 0, 0, 0, 0⟩ : FreqChoices).offsetU ≤ 1 ∧
      (⟨0, 0, 0, 0, 0⟩ : FreqChoices).rand < 9/10) ∧
    generate_realistic_bandwidth
      (generate_realistic_frequency ⟨0, 0, 0, 0, 0⟩) ⟨0, 0, 0, 0, 0⟩ ∈
      ([20, 40, 5, 10, 80] : List ℚ) :=
  ⟨⟨le_refl 0, by norm_num, by norm_num⟩,
   C6_bandwidth_by_frequency_amended ⟨0, 0, 0, 0, 0⟩ ⟨0, 0, 0, 0, 0⟩
     (le_refl 0) (by norm_num) (by norm_num)⟩

/-- Claim C7: both selection handlers follow the claimed elif chain: a range
in the payload becomes the rectangle; otherwise a nonempty points list yields
the bounding box of the point coordinates and the selected indices are the
pointIndex values; an event with neither clears the selection. In particular
the two-point example payload yields rectangle (2412, 2417, 20, 40) and
indices 0 and 1. -/
theorem C7_selection_handlers :
    (∀ d, handle_freq_bw_selection d = selection_claim_spec d) ∧
    (∀ d, handle_scanner_selection d = selection_claim_spec d) ∧
    handle_freq_bw_selection
      (some ⟨none, some [⟨2412, 20, .idx 0⟩, ⟨2417, 40, .idx 1⟩]⟩) =
      (some ⟨2412, 2417, 20, 40⟩, some [.idx 0, .idx 1]) := by
  refine ⟨?_, ?_, ?_⟩
  · rintro (_ | ⟨r, p⟩)
    · rfl
    · rcases r with _ | r <;> rcases p with _ | p <;> rfl
  · rintro (_ | ⟨r, p⟩)
    · rfl
    · rcases r with _ | r <;> rcases p with _ | p <;> rfl
  · decide

/-- Concrete sample used by the state witnesses. -/
def sampleA : SensorData := ⟨1, 2450, 20, -50⟩

/-- Second concrete sample used by the state witnesses. -/
def sampleB : SensorData := ⟨2, 2412, 40, -60⟩

/-- Concrete selection rectangle used by the state witnesses. -/
def rectW : SelRect := ⟨2412, 2417, 20, 40⟩

/-- Concrete figure with nonempty arrays used by the state witnesses. -/
def figW0 : Figure := ⟨[2450], [20], [-50], [5], some [0], [rectW]⟩

/-- Concrete stopped application state used by the state witnesses. -/
def stoppedW : AppState where
  is_generating := false
  status_text := some "Status: Stopped"
  data_rate := none
  packets_per_second := 75
  update_rate := 1
  timer := none
  data_buffer := ⟨300, [sampleA]⟩
  freq_bw_plot_element := some figW0
  scanner_plot_element := some figW0
  freq_bw_selection_state := some rectW
  freq_bw_selected_points := some [.idx 0]
  scanner_selection_state := none
  scanner_selected_points := none

/-- Concrete running application state used by the state witnesses. -/
def runningW : AppState :=
  { stoppedW with is_generating := true, timer := some ⟨1, true⟩ }

/-- Claim C9: Stop in the Stopped state and Start in the Running state are
no-ops, leaving the whole application state (generation flag, labels, timer,
buffer, plots and selections) unchanged. -/
theorem C9_start_stop_idempotent (s t : AppState)
    (hs : s.is_generating = false) (ht : t.is_generating = true) :
    stop_generation s = s ∧ start_generation t = t := by
  constructor
  · unfold stop_generation
    rw [hs]
    rfl
  · unfold start_generation
    rw [ht]
    rfl

/-- Witness for C9 at a concrete stopped state and a concrete running
state. -/
theorem C9_start_stop_idempotent_witness :
    (stoppedW.is_generating = false ∧ runningW.is_generating = true) ∧
    (stop_generation stoppedW = stoppedW ∧ start_generation runningW = runningW) :=
  ⟨⟨rfl, rfl⟩, C9_start_stop_idempotent stoppedW runningW rfl rfl⟩

/-- Claim C8: Clear, in either the Stopped or the Running state, empties the
buffer, resets both selection states and both selected point lists to None,
clears the data arrays, the selection highlight and the overlay of every
present plot element, and leaves the generation flag untouched. -/
theorem C8_clear_resets (s : AppState) :
    (clear_plots s).data_buffer.get_data = [] ∧
    (clear_plots s).data_buffer.get_size = 0 ∧
    (clear_plots s).freq_bw_selection_state = none ∧
    (clear_plots s).freq_bw_selected_points = none ∧
    (clear_plots s).scanner_selection_state = none ∧
    (clear_plots s).scanner_selected_points = none ∧
    (clear_plots s).is_generating = s.is_generating ∧
    (∀ fig, (clear_plots s).freq_bw_plot_element = some fig →
      fig.x = [] ∧ fig.y = [] ∧ fig.color = [] ∧ fig.size = [] ∧
      fig.selectedpoints = none ∧ fig.shapes = []) ∧
    (∀ fig, (clear_plots s).scanner_plot_element = some fig →
      fig.x = [] ∧ fig.y = [] ∧ fig.color = [] ∧ fig.size = [] ∧
      fig.selectedpoints = none ∧ fig.shapes = []) := by
  cases hf : s.freq_bw_plot_element <;> cases hsc : s.scanner_plot_element <;>
    simp [clear_plots, hf, hsc, efficient_clear_plot_data,
      efficient_update_plot_selection, PlotDataBuffer.clearAll,
      PlotDataBuffer.get_data, PlotDataBuffer.get_size]

/-- Witness for C8 at a concrete running state whose plot elements are both
present and whose buffer, selections and figure arrays are nonempty. -/
theorem C8_clear_resets_witness :
    (clear_plots runningW).data_buffer.get_data = [] ∧
    (clear_plots runningW).freq_bw_selection_state = none ∧
    ((clear_plots runningW).freq_bw_plot_element =
      some (efficient_update_plot_selection (efficient_clear_plot_data figW0) none none) ∧
     (efficient_update_plot_selection (efficient_clear_plot_data figW0) none none).x = [] ∧
     (efficient_update_plot_selection (efficient_clear_plot_data figW0) none none).selectedpoints = none ∧
     (efficient_update_plot_selection (efficient_clear_plot_data figW0) none none).shapes = []) :=
  ⟨(C8_clear_resets runningW).1,
   (C8_clear_resets runningW).2.2.1,
   rfl,
   ((C8_clear_resets runningW).2.2.2.2.2.2.2.1 _ rfl).1,
   ((C8_clear_resets runningW).2.2.2.2.2.2.2.1 _ rfl).2.2.2.2.1,
   ((C8_clear_resets runningW).2.2.2.2.2.2.2.1 _ rfl).2.2.2.2.2⟩

section TickLemmas

lemma filterSelectedPoints_map_idx (ps : List Nat) (n : Nat) :
    filterSelectedPoints (ps.map SelEntry.idx) n =
      .ok (ps.filter fun i => decide (i < n)) := by
  induction ps with
  | nil => rfl
  | cons i rest ih =>
    simp only [List.map_cons, filterSelectedPoints, ih, Except.map]
    by_cases h : i < n <;> simp [h, List.filter_cons]

lemma filterSelectedPoints_two (L : Nat) (h : 2 ≤ L) :
    filterSelectedPoints [.idx 0, .idx 1] L = .ok [0, 1] := by
  have h0 : 0 < L := by omega
  have h1 : 1 < L := by omega
  simp [filterSelectedPoints, h0, h1, Except.map]

lemma computeSelected_two (r : SelRect) (L : Nat) (h : 2 ≤ L) :
    computeSelected (some r) (some [.idx 0, .idx 1]) L = .ok (some [0, 1]) := by
  simp [computeSelected, filterSelectedPoints_two L h, Except.map]

end TickLemmas

lemma caughtState_ok_bind (x : AppState)
    (f : AppState → Except AppState AppState) :
    caughtState (Except.ok x >>= f) = caughtState (f x) := rfl

lemma caughtState_error_bind (x : AppState)
    (f : AppState → Except AppState AppState) :
    caughtState (Except.error x >>= f) = x := rfl

lemma caughtState_ok (x : AppState) : caughtState (Except.ok x) = x := rfl

lemma caughtState_error (x : AppState) : caughtState (Except.error x) = x := rfl

lemma freqBwTick_shape (s : AppState) (c : List SensorData) :
    freqBwTick s c = .error s ∨
    ∃ o, freqBwTick s c = .ok { s with freq_bw_plot_element := o } := by
  obtain ⟨g, st, dr, pps, ur, tm, db, fbe, sce, fbs, fbp, scs, scp⟩ := s
  cases fbe with
  | none => exact Or.inr ⟨none, rfl⟩
  | some fig =>
    by_cases hc : c.isEmpty = true
    · right
      refine ⟨some (efficient_clear_plot_data fig), ?_⟩
      simp [freqBwTick, hc]
    · rcases hcs : computeSelected fbs fbp c.length with e | sel
      · left
        simp [freqBwTick, hc, hcs]
      · right
        simp only [freqBwTick, hc, List.length_map, hcs]
        exact ⟨_, rfl⟩

lemma scannerTick_shape (s : AppState) (c : List SensorData) :
    scannerTick s c = .error s ∨
    ∃ o, scannerTick s c = .ok { s with scanner_plot_element := o } := by
  obtain ⟨g, st, dr, pps, ur, tm, db, fbe, sce, fbs, fbp, scs, scp⟩ := s
  cases sce with
  | none => exact Or.inr ⟨none, rfl⟩
  | some fig =>
    by_cases hc : c.isEmpty = true
    · right
      refine ⟨some (efficient_clear_plot_data fig), ?_⟩
      simp [scannerTick, hc]
    · rcases hcs : computeSelected scs scp c.length with e | sel
      · left
        simp [scannerTick, hc, hcs]
      · right
        simp only [scannerTick, hc, List.length_map, hcs]
        exact ⟨_, rfl⟩

lemma freqBwTick_selected (s : AppState) (fig : Figure) (r : SelRect)
    (current : List SensorData)
    (hfig : s.freq_bw_plot_element = some fig)
    (hsel : s.freq_bw_selection_state = some r)
    (hpts : s.freq_bw_selected_points = some [.idx 0, .idx 1])
    (hlen : 2 ≤ current.length) :
    ∃ figOut,
      freqBwTick s current = .ok { s with freq_bw_plot_element := some figOut } ∧
      figOut.selectedpoints = some [0, 1] ∧ figOut.shapes = [r] := by
  obtain ⟨g, st, dr, pps, ur, tm, db, fbe, sce, fbs, fbp, scs, scp⟩ := s
  simp only at hfig hsel hpts
  subst hfig hsel hpts
  have hne : ¬ current.isEmpty = true := by
    cases current with
    | nil => simp at hlen
    | cons a l => simp
  have hcs : computeSelected (some r) (some [.idx 0, .idx 1]) current.length =
      .ok (some [0, 1]) := computeSelected_two r current.length hlen
  refine ⟨efficient_update_plot_selection
    (efficient_update_plot_data fig (current.map (·.frequency))
      (current.map (·.bandwidth)) (some (current.map (·.power))) none
      (some [0, 1]))
    (some r) (some [0, 1]), ?_, ?_, ?_⟩
  · simp [freqBwTick, hne, hcs]
  · simp [efficient_update_plot_selection, efficient_update_plot_data]
  · simp [efficient_update_plot_selection, efficient_update_plot_data]

/-- Claim C2: on a tick, for each plot independently, the previously selected
indices are re-applied filtered to those strictly below the new array length
(second conjunct); in particular, with indices 0 and 1 selected on the
freq/bw plot and a tick whose new buffer has length at least 2, the
selected-index list applied to that plot after the tick is exactly [0, 1] and
the selection rectangle overlay is re-rendered (first conjunct). -/
theorem C2_selection_survives_tick (s : AppState) (nd : List SensorData)
    (fig : Figure) (r : SelRect)
    (hg : s.is_generating = true)
    (hfig : s.freq_bw_plot_element = some fig)
    (hsel : s.freq_bw_selection_state = some r)
    (hpts : s.freq_bw_selected_points = some [.idx 0, .idx 1])
    (hlen : 2 ≤ ((s.data_buffer.clearAll).add_data nd).get_size) :
    (∃ figOut,
      (update_sensor_data s nd).freq_bw_plot_element = some figOut ∧
      figOut.selectedpoints = some [0, 1] ∧ figOut.shapes = [r]) ∧
    (∀ (p : Nat) (ps : List Nat) (n : Nat),
      computeSelected (some r) (some ((p :: ps).map SelEntry.idx)) n =
        .ok (some ((p :: ps).filter fun i => decide (i < n)))) := by
  constructor
  · obtain ⟨figOut, htick, hselpts, hshapes⟩ :=
      freqBwTick_selected
        { s with data_buffer := (s.data_buffer.clearAll).add_data nd }
        fig r ((s.data_buffer.clearAll).add_data nd).get_data
        hfig hsel hpts hlen
    refine ⟨figOut, ?_, hselpts, hshapes⟩
    unfold update_sensor_data
    rw [if_neg (show ¬ ((!s.is_generating) = true) by simp [hg])]
    dsimp only
    rw [htick, caughtState_ok_bind]
    rcases scannerTick_shape
        { s with
          data_buffer := (s.data_buffer.clearAll).add_data nd
          freq_bw_plot_element := some figOut }
        ((s.data_buffer.clearAll).add_data nd).get_data with h2 | ⟨o2, h2⟩
    · rw [h2, caughtState_error]
    · rw [h2, caughtState_ok]
  · intro p ps n
    have h := filterSelectedPoints_map_idx (p :: ps) n
    simp only [List.map_cons] at h
    simp [computeSelected, h, Except.map]

/-- Concrete state with indices 0 and 1 selected on the freq/bw plot, used by
the C2 witness. -/
def selW : AppState :=
  { runningW with freq_bw_selected_points := some [.idx 0, .idx 1] }

/-- Witness for C2 at a concrete running state and a two-sample batch. -/
theorem C2_selection_survives_tick_witness :
    (selW.is_generating = true ∧ selW.freq_bw_plot_element = some figW0 ∧
     selW.freq_bw_selection_state = some rectW ∧
     selW.freq_bw_selected_points = some [.idx 0, .idx 1] ∧
     2 ≤ ((selW.data_buffer.clearAll).add_data [sampleA, sampleB]).get_size) ∧
    (∃ figOut,
      (update_sensor_data selW [sampleA, sampleB]).freq_bw_plot_element =
        some figOut ∧
      figOut.selectedpoints = some [0, 1] ∧ figOut.shapes = [rectW]) :=
  ⟨⟨rfl, rfl, rfl, rfl, by decide⟩,
   (C2_selection_survives_tick selW [sampleA, sampleB] figW0 rectW
     rfl rfl rfl rfl (by decide)).1⟩

lemma update_sensor_data_shape (s : AppState) (nd : List SensorData)
    (hg : s.is_generating = true) :
    ∃ o1 o2, update_sensor_data s nd =
      { s with
        data_buffer := (s.data_buffer.clearAll).add_data nd
        freq_bw_plot_element := o1
        scanner_plot_element := o2 } := by
  unfold update_sensor_data
  rw [if_neg (show ¬ ((!s.is_generating) = true) by simp [hg])]
  dsimp only
  rcases freqBwTick_shape
      { s with data_buffer := (s.data_buffer.clearAll).add_data nd }
      ((s.data_buffer.clearAll).add_data nd).get_data with h1 | ⟨o1, h1⟩
  · refine ⟨s.freq_bw_plot_element, s.scanner_plot_element, ?_⟩
    rw [h1, caughtState_error_bind]
  · rcases scannerTick_shape
        { s with
          data_buffer := (s.data_buffer.clearAll).add_data nd
          freq_bw_plot_element := o1 }
        ((s.data_buffer.clearAll).add_data nd).get_data with h2 | ⟨o2, h2⟩
    · refine ⟨o1, s.scanner_plot_element, ?_⟩
      rw [h1, caughtState_ok_bind, h2, caughtState_error]
    · refine ⟨o1, o2, ?_⟩
      rw [h1, caughtState_ok_bind, h2, caughtState_ok]

/-- Concrete running state whose stored freq/bw selected points contain a
malformed (non-integer) entry, so the next tick raises inside the selection
recomputation, after the buffer has already been replaced. -/
def malformedW : AppState :=
  { runningW with freq_bw_selected_points := some [.malformed] }

/-- Counterexample for claim C5: at the malformed concrete state, the tick
raises after the buffer replacement; the exception is caught, but the post
state differs from the pre state — the buffer now holds the new batch — so
the tick is not a no-op and the state is not as if the tick had not run. -/
theorem C5_tick_noop_counterexample :
    update_sensor_data malformedW [sampleB] ≠ malformedW ∧
    (update_sensor_data malformedW [sampleB]).data_buffer.get_data = [sampleB] ∧
    malformedW.data_buffer.get_data = [sampleA] ∧
    (update_sensor_data malformedW [sampleB]).freq_bw_plot_element =
      malformedW.freq_bw_plot_element := by
  refine ⟨?_, by decide, by decide, by decide⟩
  intro h
  have hb := congrArg (fun st => st.data_buffer.data_buffer) h
  revert hb
  decide

/-- Claim C5 as amended: any exception raised mid-tick is caught (the update
function always returns a state), the generation flag, timer and labels are
unchanged so generation continues on the next scheduled tick, and the buffer
holds the newly generated batch; however, mutations already applied before
the raise persist — the tick is not rolled back to the pre-tick state. -/
theorem C5_exception_caught_amended (s : AppState) (nd : List SensorData)
    (hg : s.is_generating = true) :
    (update_sensor_data s nd).is_generating = true ∧
    (update_sensor_data s nd).timer = s.timer ∧
    (update_sensor_data s nd).status_text = s.status_text ∧
    (update_sensor_data s nd).data_buffer =
      (s.data_buffer.clearAll).add_data nd := by
  obtain ⟨o1, o2, he⟩ := update_sensor_data_shape s nd hg
  rw [he]
  exact ⟨hg, rfl, rfl, rfl⟩

/-- Witness for the amended C5 at the malformed concrete state, where the
tick does raise. -/
theorem C5_exception_caught_amended_witness :
    malformedW.is_generating = true ∧
    ((update_sensor_data malformedW [sampleB]).is_generating = true ∧
     (update_sensor_data malformedW [sampleB]).timer = malformedW.timer ∧
     (update_sensor_data malformedW [sampleB]).status_text = malformedW.status_text ∧
     (update_sensor_data malformedW [sampleB]).data_buffer =
       (malformedW.data_buffer.clearAll).add_data [sampleB]) :=
  ⟨rfl, C5_exception_caught_amended malformedW [sampleB] rfl⟩

end PltApp
